import Mathlib

/-!
Verification development for the katamaran live-migration orchestrator.

The program under verification is the current layout built by the
repository's Dockerfile and test harness: `cmd/katamaran` wired to the
packages `internal/qmp` (monitor client) and `internal/migration`
(orchestrators, tunnel controller, configuration).  The definitions below
are a shallow embedding of those Go sources: synchronous control flow is
translated to pure functions over explicit state, the QMP wire is a list
of read outcomes, external command execution and OS-level effects are
environment booleans, and wall-clock deadline checks are per-iteration
boolean observations of `time.Now().After(deadline)`.
-/

/-! ## QMP wire model (internal/qmp/types.go, client.go)

A decoded QMP line is a `response` with an optional `return` payload, an
optional protocol `error`, and an `event` name (`""` when absent) —
mirroring the Go struct with fields `Return`, `Error`, `Event`. -/

/-- Protocol-level QMP error carried on an `{"error": ...}` line
(`Error` struct in internal/qmp/types.go: fields `Class`, `Desc`). -/
structure QmpProtoError where
  errClass : String
  desc : String
deriving Repr, DecidableEq

/-- A decoded QMP line (`response` struct in internal/qmp/types.go).
`ret` is the opaque raw payload of a `return` line, kept as a string. -/
structure Response where
  ret : Option String := none
  error : Option QmpProtoError := none
  event : String := ""
deriving Repr, DecidableEq

/-- Outcome of one `bufio.Reader.ReadBytes('\n')` call on the monitor
socket, as seen by the client: a line that decodes to a `Response`, a
line that fails to unmarshal, a `net.Error` timeout, or another I/O
error. -/
inductive ReadOutcome
  | line (resp : Response)
  | badLine
  | timeoutErr
  | ioError
deriving Repr, DecidableEq

/-- The caller's `context.Context`, reduced to the one observation the
client makes of it: whether `ctx.Err() != nil`. -/
structure Ctx where
  cancelled : Bool
deriving Repr, DecidableEq

/-- Monitor client state (`Client` struct in internal/qmp/client.go).
`connOpen` models `c.conn != nil` (the session handle); `sockOpen`
models the underlying socket not having been closed; `wire` is the
sequence of pending read outcomes on the buffered reader; `events` is
the buffered-event slice `c.events`. -/
structure Client where
  connOpen : Bool
  sockOpen : Bool
  wire : List ReadOutcome
  events : List Response
deriving Repr, DecidableEq

/-- Result of `Client.Execute` (internal/qmp/client.go), one constructor
per `return` site. `connClosed` is the "connection is closed" kind;
`ctxCancelled` is `ctx.Err()`; `timedOut` the dedicated "timed out
waiting for QMP response" error; `cmdFailed` the "command failed" kind
carrying the wire error. -/
inductive ExecResult
  | ok (payload : Option String)
  | connClosed (cmd : String)
  | ctxCancelled
  | deadlineFailed (cmd : String)
  | writeFailed (cmd : String)
  | timedOut (cmd : String)
  | readFailed (cmd : String)
  | unmarshalFailed (cmd : String)
  | cmdFailed (cmd : String) (e : QmpProtoError)
deriving Repr, DecidableEq

/-- The read loop of `Execute`: read lines until a non-event reply.
Event lines (`resp.Event != ""`) are appended to the event buffer and
the loop continues; an error line or a return line ends the loop.  A
read failure is classified exactly as in the source: caller cancellation
first (`ctx.Err() != nil`, possible because the cancellation monitor
advanced the socket deadline to now), then `net.Error` timeout, then a
generic read error.  An exhausted wire models a read that blocks until
the I/O deadline fires, hence a timeout. -/
def executeLoop (ctx : Ctx) (cmd : String) :
    List ReadOutcome → List Response → ExecResult × List ReadOutcome × List Response
  | [], evs =>
      (if ctx.cancelled then .ctxCancelled else .timedOut cmd, [], evs)
  | .line r :: rest, evs =>
      if r.event ≠ "" then
        executeLoop ctx cmd rest (evs ++ [r])
      else
        match r.error with
        | some e => (.cmdFailed cmd e, rest, evs)
        | none => (.ok r.ret, rest, evs)
  | .badLine :: rest, evs => (.unmarshalFailed cmd, rest, evs)
  | .timeoutErr :: rest, evs =>
      (if ctx.cancelled then .ctxCancelled else .timedOut cmd, rest, evs)
  | .ioError :: rest, evs =>
      (if ctx.cancelled then .ctxCancelled else .readFailed cmd, rest, evs)

/-- `Client.Execute` (internal/qmp/client.go).  Fails fast with the
"connection is closed" kind when `c.conn == nil`.  `setDeadlineOk` and
`writeOk` are the outcomes of `conn.SetDeadline` and `conn.Write`; a
write failure under a cancelled context returns `ctx.Err()`.  The
cancellation monitor only advances the socket deadline: no branch of
this function closes the socket or clears the session handle, which is
why the returned client keeps `connOpen` and `sockOpen` unchanged. -/
def Client.Execute (c : Client) (ctx : Ctx) (cmd : String)
    (setDeadlineOk writeOk : Bool) : ExecResult × Client :=
  if !c.connOpen then
    (.connClosed cmd, c)
  else if !setDeadlineOk then
    (.deadlineFailed cmd, c)
  else if !writeOk then
    (if ctx.cancelled then .ctxCancelled else .writeFailed cmd, c)
  else
    let out := executeLoop ctx cmd c.wire c.events
    (out.1, { c with wire := out.2.1, events := out.2.2 })

/-- Result of `Client.WaitForEvent`, one constructor per return site. -/
inductive WaitResult
  | ok
  | connClosed (name : String)
  | deadlineFailed
  | ctxCancelled
  | timedOut (name : String)
  | readFailed
  | unmarshalFailed
deriving Repr, DecidableEq

/-- The buffered-event scan of `WaitForEvent`: find the first (oldest)
buffered response whose `event` equals `name` and remove it, preserving
the order of the remaining entries (the Go code does this with an
indexed loop and `copy`).  Returns `none` when no entry matches. -/
def removeFirstEvent (name : String) : List Response → Option (List Response)
  | [] => none
  | r :: rest =>
      if r.event = name then
        some rest
      else
        match removeFirstEvent name rest with
        | some rest2 => some (r :: rest2)
        | none => none

/-- The wire-read loop of `WaitForEvent`: read lines, return on the
named event, silently discard every other line (non-matching events are
not re-buffered).  Read failures are classified as in `Execute`. -/
def waitLoop (ctx : Ctx) (name : String) :
    List ReadOutcome → WaitResult × List ReadOutcome
  | [] => (if ctx.cancelled then .ctxCancelled else .timedOut name, [])
  | .line r :: rest =>
      if r.event = name then (.ok, rest) else waitLoop ctx name rest
  | .badLine :: rest => (.unmarshalFailed, rest)
  | .timeoutErr :: rest =>
      (if ctx.cancelled then .ctxCancelled else .timedOut name, rest)
  | .ioError :: rest =>
      (if ctx.cancelled then .ctxCancelled else .readFailed, rest)

/-- `Client.WaitForEvent` (internal/qmp/client.go).  Faithful to the
source's order of checks: the buffered events are scanned *before* the
`conn == nil` test, so a buffered match returns success even on a closed
session.  On a buffer miss with an open connection it reads from the
wire under a deadline; the cancellation monitor again only advances the
deadline.  `setDeadlineOk` is the outcome of `conn.SetReadDeadline`. -/
def Client.WaitForEvent (c : Client) (ctx : Ctx) (name : String)
    (setDeadlineOk : Bool) : WaitResult × Client :=
  match removeFirstEvent name c.events with
  | some evs2 => (.ok, { c with events := evs2 })
  | none =>
      if !c.connOpen then
        (.connClosed name, c)
      else if !setDeadlineOk then
        (.deadlineFailed, c)
      else
        let out := waitLoop ctx name c.wire
        (out.1, { c with wire := out.2 })

/-- `Client.Close` (internal/qmp/client.go).  When the session handle is
already nil it returns nil immediately; otherwise it closes the socket
(whose own close result is `closeErr`), clears the handle, and returns
the close result. -/
def Client.Close (c : Client) (closeErr : Bool) : Option String × Client :=
  if !c.connOpen then
    (none, c)
  else
    ((if closeErr then some "close failed" else none),
     { c with connOpen := false, sockOpen := false })

/-- The event lines a run of the `Execute` read loop consumes before the
first non-event outcome, in wire order.  Used to state that buffered
events reflect arrival order. -/
def eventsUntilReply : List ReadOutcome → List Response
  | [] => []
  | .line r :: rest => if r.event ≠ "" then r :: eventsUntilReply rest else []
  | .badLine :: _ => []
  | .timeoutErr :: _ => []
  | .ioError :: _ => []

/-! ## Connect handshake model (internal/qmp/client.go, NewClient) -/

/-- Outcome of the greeting `ReadString('\n')` during the handshake. -/
inductive GreetingRead
  | line
  | timeoutErr
  | ioError
deriving Repr, DecidableEq

/-- Outcome of reading and decoding the qmp_capabilities reply line. -/
inductive CapsRead
  | reply (r : Response)
  | readErr
  | badJson
deriving Repr, DecidableEq

/-- Environment for one `NewClient` run: the outcome of each fallible
step.  `ctxCancelled` models the caller's context being cancelled during
the handshake: the background monitor goroutine then closes the
connection, so the greeting read fails with a non-timeout error. -/
structure ConnectEnv where
  dialOk : Bool
  ctxCancelled : Bool
  setGreetingDeadlineOk : Bool
  greeting : GreetingRead
  setCapsDeadlineOk : Bool
  marshalOk : Bool
  writeCapsOk : Bool
  capsReply : CapsRead
  clearDeadlineOk : Bool
deriving Repr, DecidableEq

/-- Error kinds of `NewClient`, one per `return nil, ...` site. -/
inductive ConnectErr
  | dialFailed
  | setGreetingDeadline
  | readGreeting
  | setCapsDeadline
  | marshalCaps
  | writeCaps
  | readCapsReply
  | decodeCapsReply
  | capsRejected (e : QmpProtoError)
  | clearDeadline
deriving Repr, DecidableEq

/-- Result of `NewClient`: the Go function returns a `(client, error)`
pair, modelled literally so that mutual exclusion of the two components
is a theorem, not a modelling artifact.  `sockOpen` is the state of the
dialed socket at return (`false` as well when the dial itself failed and
no socket exists), and `deadlineCleared` records whether the final
`SetReadDeadline(time.Time{})` succeeded. -/
structure ConnectOutcome where
  client : Option Client
  err : Option ConnectErr
  sockOpen : Bool
  deadlineCleared : Bool
deriving Repr, DecidableEq

/-- `NewClient` (internal/qmp/client.go): dial, optional greeting with a
short deadline (a greeting timeout is tolerated and the handshake
proceeds), capability negotiation, deadline clearing.  Every failing
branch after a successful dial executes `conn.Close()` before
returning.  The returned session starts with an empty event buffer. -/
def NewClient (env : ConnectEnv) : ConnectOutcome :=
  if !env.dialOk then
    { client := none, err := some .dialFailed, sockOpen := false, deadlineCleared := false }
  else if !env.setGreetingDeadlineOk then
    { client := none, err := some .setGreetingDeadline, sockOpen := false, deadlineCleared := false }
  else
    -- a cancelled context closes the socket from the monitor goroutine,
    -- so the greeting read fails with a non-timeout error
    let greet := if env.ctxCancelled then GreetingRead.ioError else env.greeting
    match greet with
    | .ioError =>
        { client := none, err := some .readGreeting, sockOpen := false, deadlineCleared := false }
    | _ =>
      if !env.setCapsDeadlineOk then
        { client := none, err := some .setCapsDeadline, sockOpen := false, deadlineCleared := false }
      else if !env.marshalOk then
        { client := none, err := some .marshalCaps, sockOpen := false, deadlineCleared := false }
      else if !env.writeCapsOk then
        { client := none, err := some .writeCaps, sockOpen := false, deadlineCleared := false }
      else
        match env.capsReply with
        | .readErr =>
            { client := none, err := some .readCapsReply, sockOpen := false, deadlineCleared := false }
        | .badJson =>
            { client := none, err := some .decodeCapsReply, sockOpen := false, deadlineCleared := false }
        | .reply r =>
          match r.error with
          | some e =>
              { client := none, err := some (.capsRejected e), sockOpen := false, deadlineCleared := false }
          | none =>
            if !env.clearDeadlineOk then
              { client := none, err := some .clearDeadline, sockOpen := false, deadlineCleared := false }
            else
              { client := some { connOpen := true, sockOpen := true, wire := [], events := [] },
                err := none, sockOpen := true, deadlineCleared := true }

/-! ## Address family model (internal/migration/config.go, tunnel.go)

The Go code classifies addresses with `net/netip`: `Is4` is true only
for plain IPv4, `Is6` is true for every IPv6 form including
IPv4-mapped, `Is4In6` singles out the IPv4-mapped form, and `Unmap`
rewrites an IPv4-mapped address to its IPv4 equivalent.  The model
keeps exactly that classification. -/

/-- Semantic family of a parsed `netip.Addr`. -/
inductive Addr
  | v4
  | v6
  | v4in6
deriving Repr, DecidableEq

def Addr.Is4 : Addr → Bool
  | .v4 => true
  | _ => false

def Addr.Is6 : Addr → Bool
  | .v4 => false
  | _ => true

def Addr.Is4In6 : Addr → Bool
  | .v4in6 => true
  | _ => false

def Addr.Unmap : Addr → Addr
  | .v4in6 => .v4
  | a => a

/-- A successful `netip.ParseAddr` result: the family classification,
the canonical string `a.String()`, and the string of `a.Unmap()` (equal
to `str` whenever the address is not IPv4-mapped). -/
structure ParsedAddr where
  fam : Addr
  str : String
  unmapStr : String
deriving Repr, DecidableEq

/-- `Unmap` lifted to the parsed-address record. -/
def ParsedAddr.Unmap (p : ParsedAddr) : ParsedAddr :=
  { fam := p.fam.Unmap, str := p.unmapStr, unmapStr := p.unmapStr }

/-- `IPFamily` (internal/migration/tunnel.go): human-readable family
label used in the mismatch error message. -/
def IPFamily (a : Addr) : String :=
  if a.Is4 then "IPv4" else "IPv6"

/-- Port constants from internal/migration/config.go. -/
def NBDPort : String := "10809"

def RAMMigrationPort : String := "4444"

/-- `MaxDowntimeMS` from internal/migration/config.go. -/
def MaxDowntimeMS : Nat := 50

/-- `MaxBandwidth` from internal/migration/config.go (10 GB/s). -/
def MaxBandwidth : Nat := 10000000000

/-- `TunnelName` from internal/migration/config.go. -/
def TunnelName : String := "mig-tun"

/-- `FormatQEMUHost` (internal/migration/config.go), parameterised by
the `netip.ParseAddr` result for `ip` (`none` models a parse error, in
which case the string is returned as-is).  A semantically IPv6 address
(`Is6` and not `Is4In6`) is wrapped in square brackets; anything else is
returned unchanged. -/
def FormatQEMUHost (parsed : Option Addr) (ip : String) : String :=
  match parsed with
  | none => ip
  | some a => if a.Is6 && !a.Is4In6 then "[" ++ ip ++ "]" else ip

/-! ## Tunnel controller (internal/migration/tunnel.go, SetupTunnel) -/

/-- Error kinds of `SetupTunnel`, one per return site.  The
family-mismatch error carries the two original address strings and the
two family labels, as in the Go message
"address family mismatch: destIP %q is %s but vmIP %q is %s". -/
inductive TunnelErr
  | invalidDestIP (s : String)
  | invalidVmIP (s : String)
  | familyMismatch (destIP destFam vmIP vmFam : String)
  | createFailed
  | linkUpFailed
  | routeFailed (vmStr : String)
deriving Repr, DecidableEq

/-- Outcomes of the three fallible `ip` invocations in `SetupTunnel`
(the stale-tunnel delete is attempted but its error is ignored). -/
structure TunnelEnv where
  createOk : Bool
  upOk : Bool
  routeOk : Bool
deriving Repr, DecidableEq

/-- What a successful `SetupTunnel` did: the encapsulation mode chosen
and the argv of the tunnel-creation command. -/
structure TunnelSetup where
  mode : String
  createArgv : List String
  routeArgv : List String
deriving Repr, DecidableEq

/-- `SetupTunnel` (internal/migration/tunnel.go), parameterised by the
`netip.ParseAddr` results of the two address strings.  Parses, unmaps
IPv4-mapped IPv6, rejects cross-family pairs, removes any stale tunnel
(ignored), then selects the mode by (family, tunnelMode) and builds the
`ip` commands with `local any` (IPv4) or `local ::` (IPv6). -/
def SetupTunnel (destIP vmIP : String)
    (destParse vmParse : Option ParsedAddr) (tunnelMode : String)
    (env : TunnelEnv) : Except TunnelErr TunnelSetup :=
  match destParse with
  | none => .error (.invalidDestIP destIP)
  | some dest0 =>
    match vmParse with
    | none => .error (.invalidVmIP vmIP)
    | some vm0 =>
      let dest := dest0.Unmap
      let vm := vm0.Unmap
      let destStr := dest.str
      let vmStr := vm.str
      if dest.fam.Is4 ≠ vm.fam.Is4 then
        .error (.familyMismatch destIP (IPFamily dest.fam) vmIP (IPFamily vm.fam))
      else
        let mode :=
          if tunnelMode = "gre" && dest.fam.Is6 then "ip6gre"
          else if tunnelMode = "gre" then "gre"
          else if dest.fam.Is6 then "ip6ip6"
          else "ipip"
        let createArgv :=
          if dest.fam.Is6 then
            ["ip", "-6", "tunnel", "add", TunnelName, "mode", mode,
             "remote", destStr, "local", "::"]
          else
            ["ip", "tunnel", "add", TunnelName, "mode", mode,
             "remote", destStr, "local", "any"]
        if !env.createOk then
          .error .createFailed
        else if !env.upOk then
          .error .linkUpFailed
        else
          let routeArgv :=
            if vm.fam.Is6 then
              ["ip", "-6", "route", "add", vmStr, "dev", TunnelName]
            else
              ["ip", "route", "add", vmStr, "dev", TunnelName]
          if !env.routeOk then
            .error (.routeFailed vmStr)
          else
            .ok { mode := mode, createArgv := createArgv, routeArgv := routeArgv }

/-! ## Storage readiness loop (internal/migration/source.go, waitForStorageSync) -/

/-- One entry of the `query-block-jobs` array (`BlockJobInfo` in
internal/qmp/types.go): `device`, `len`, `offset`, `ready`, `status`. -/
structure BlockJobInfo where
  device : String
  len : Int
  offset : Int
  ready : Bool
  status : String
deriving Repr, DecidableEq

/-- Outcome of one `query-block-jobs` execute in the polling loop. -/
inductive StorageOutcome
  | execFail
  | badJson
  | jobs (l : List BlockJobInfo)
deriving Repr, DecidableEq

/-- One iteration of the storage polling loop: the query outcome plus
the two wall-clock observations the iteration makes
(`time.Now().After(appearDeadline)` where the appear deadline is
submission + 30 s `JobAppearTimeout`, and `time.Now().After(syncDeadline)`
where the sync deadline is submission + 2 h `StorageSyncTimeout`), and
whether the caller context is done at the end-of-iteration select. -/
structure StoragePoll where
  outcome : StorageOutcome
  lateAppear : Bool
  lateSync : Bool
  ctxDone : Bool
deriving Repr, DecidableEq

/-- Return values of `waitForStorageSync`, one constructor per return
site; error constructors carry the data the Go error message names. -/
inductive StorageResult
  | synced
  | queryFailed
  | unmarshalFailed
  | disappeared (jobID : String)
  | didNotAppear (jobID : String)
  | terminalState (jobID status : String)
  | syncTimedOut (jobID : String)
  | ctxCancelled
deriving Repr, DecidableEq

/-- The job lookup inside the loop: first entry whose `device` equals
the job id (the Go loop breaks at the first match). -/
def findJob (jobID : String) : List BlockJobInfo → Option BlockJobInfo
  | [] => none
  | j :: rest => if j.device = jobID then some j else findJob jobID rest

/-- `waitForStorageSync` (internal/migration/source.go), as a recursion
over the iteration script.  `jobSeen` is the loop flag of the same
name.  Per iteration, in source order: query (fatal on execute or
decode failure); look the job up; if absent, fail when it had been seen
(disappeared) or when the appear deadline has passed; if present, mark
it seen, succeed on `ready`, fail on terminal status "concluded" or
"null"; then fail if the sync deadline has passed, return `ctx.Err()` if
the context is done, else sleep and continue.  The result is paired
with the number of `query-block-jobs` commands issued; `none` means the
script ended with the loop still running. -/
def waitForStorageSync (jobID : String) :
    Bool → List StoragePoll → Option StorageResult × Nat
  | _, [] => (none, 0)
  | jobSeen, p :: rest =>
      let step : Option StorageResult × Bool :=
        match p.outcome with
        | .execFail => (some .queryFailed, jobSeen)
        | .badJson => (some .unmarshalFailed, jobSeen)
        | .jobs l =>
          match findJob jobID l with
          | none =>
              if jobSeen then (some (.disappeared jobID), jobSeen)
              else if p.lateAppear then (some (.didNotAppear jobID), jobSeen)
              else (none, jobSeen)
          | some j =>
              if j.ready then (some .synced, true)
              else if j.status = "concluded" || j.status = "null" then
                (some (.terminalState jobID j.status), true)
              else (none, true)
      match step.1 with
      | some r => (some r, 1)
      | none =>
          if p.lateSync then (some (.syncTimedOut jobID), 1)
          else if p.ctxDone then (some .ctxCancelled, 1)
          else
            let out := waitForStorageSync jobID step.2 rest
            (out.1, out.2 + 1)

/-! ## Migration completion loop (internal/migration/source.go,
waitForMigrationComplete) -/

/-- Decoded `query-migrate` reply (`MigrateInfo` in
internal/qmp/types.go): `status` and optional `error-desc` (empty string
when absent, as in the Go struct). -/
structure MigrateInfo where
  status : String
  errorDesc : String
deriving Repr, DecidableEq

/-- Outcome of one `query-migrate` execute. -/
inductive MigrateOutcome
  | execFail
  | badJson
  | info (i : MigrateInfo)
deriving Repr, DecidableEq

/-- One iteration of the migration polling loop: the query outcome, the
iteration's observation of `time.Now().After(deadline)` (deadline =
start + 1 h `MigrationTimeout`), and whether the caller context is done
at the end-of-iteration select. -/
structure MigratePoll where
  outcome : MigrateOutcome
  lateNow : Bool
  ctxDone : Bool
deriving Repr, DecidableEq

/-- Return values of `waitForMigrationComplete`.  `failed` models
`ErrMigrationFailed` (wrapped with the wire `error-desc` when non-empty),
`cancelled` models `ErrMigrationCancelled`, `timedOut` the formatted
"did not complete within ... (last status: %s)" error.  The three are
distinct constructors, as the Go values are distinct sentinel errors
(`errors.Is`-distinguishable) and a plain formatted error. -/
inductive MigResult
  | completed
  | queryFailed
  | unmarshalFailed
  | failed (errorDesc : String)
  | cancelled
  | timedOut (lastStatus : String)
  | ctxCancelled
deriving Repr, DecidableEq

/-- `waitForMigrationComplete` (internal/migration/source.go): per
iteration query `query-migrate` (fatal on execute or decode failure),
switch on `status` — "completed" succeeds, "failed" returns the
migration-failed error carrying `error-desc`, "cancelled" returns the
migration-cancelled error — then fail if the 1-hour deadline has passed
(the timeout error naming the current status), return `ctx.Err()` if
the context is done, else sleep and continue.  Paired with the number
of `query-migrate` commands issued; `none` means the script ended with
the loop still running. -/
def waitForMigrationComplete :
    List MigratePoll → Option MigResult × Nat
  | [] => (none, 0)
  | p :: rest =>
      match p.outcome with
      | .execFail => (some .queryFailed, 1)
      | .badJson => (some .unmarshalFailed, 1)
      | .info i =>
          if i.status = "completed" then (some .completed, 1)
          else if i.status = "failed" then (some (.failed i.errorDesc), 1)
          else if i.status = "cancelled" then (some .cancelled, 1)
          else if p.lateNow then (some (.timedOut i.status), 1)
          else if p.ctxDone then (some .ctxCancelled, 1)
          else
            let out := waitForMigrationComplete rest
            (out.1, out.2 + 1)

/-! ## Source orchestrator (internal/migration/source.go, RunSource)

The monitor-facing behaviour of `RunSource` is modelled as the sequence
of QMP commands issued over the session, in order.  External `ip`
commands (tunnel setup/teardown) are not monitor commands and do not
appear in this trace; the tunnel outcome only feeds the
`tunnelCreated` flag. -/

/-- A QMP command issued by an orchestrator, with the arguments the
source fixes.  `driveMirror` carries device, target, sync, mode and
job-id; `migrateSetParameters` carries downtime-limit and
max-bandwidth. -/
inductive Cmd
  | qmpCapabilities
  | driveMirror (device target sync mode jobId : String)
  | queryBlockJobs
  | migrateSetCapabilities (capability : String) (state : Bool)
  | migrateSetParameters (downtimeLimit maxBandwidth : Nat)
  | migrate (uri : String)
  | queryMigrate
  | migrateCancel
  | blockJobCancel (device : String) (force : Bool)
deriving Repr, DecidableEq

/-- One issued command together with whether it ran under a detached
cleanup context (`CleanupCtx()` in internal/migration/config.go) rather
than the caller's context. -/
structure TraceEntry where
  cmd : Cmd
  cleanupCtx : Bool
deriving Repr, DecidableEq

/-- Inputs of `RunSource` that the monitor trace depends on.
`destParse` is the `netip.ParseAddr` view of `destIP` used by
`FormatQEMUHost`. -/
structure SourceCfg where
  destIP : String
  destParse : Option Addr
  vmIP : String
  driveID : String
  sharedStorage : Bool
  tunnelMode : String
deriving Repr, DecidableEq

/-- Environment of one `RunSource` run: outcome of each fallible step
plus the scripts of the two polling loops. -/
structure SourceScript where
  connectOk : Bool
  driveMirrorOk : Bool
  storagePolls : List StoragePoll
  setCapsOk : Bool
  setParamsOk : Bool
  migrateOk : Bool
  stopOk : Bool
  tunnelOk : Bool
  migratePolls : List MigratePoll
deriving Repr, DecidableEq

/-- Error kinds of `RunSource`, one per return site; `migration r`
wraps the error from the completion loop ("migration failed: %w"). -/
inductive SourceErr
  | connect
  | driveMirrorFailed
  | storageSync (r : StorageResult)
  | setCaps
  | setParams
  | migrateStart
  | stopEvent
  | migration (r : MigResult)
deriving Repr, DecidableEq

/-- Whether a `RunSource` run finished (with an optional error) or its
polling script ended with a loop still running. -/
inductive SourceStatus
  | finished (err : Option SourceErr)
  | outOfScript
deriving Repr, DecidableEq

/-- The deferred forced block-job cancel armed after a successful
`drive-mirror` (internal/migration/source.go, the `defer` with
`mirrorStarted`): it runs under a cleanup context when still armed at
return. -/
def mirrorDeferTrace (mirrorStarted : Bool) (jobID : String) : List TraceEntry :=
  if mirrorStarted then [⟨.blockJobCancel jobID true, true⟩] else []

/-- Steps 3–9 of `RunSource`: capabilities, parameters, migrate, STOP
wait, tunnel setup (external, warning-only), migration polling, the
conditional explicit `migrate_cancel`, the explicit forced block-job
cancel disarming the deferred one, and tunnel teardown (external).
`mirrorStarted` says whether the deferred cancel is armed on entry. -/
def ramPhase (cfg : SourceCfg) (s : SourceScript) (mirrorStarted : Bool)
    (jobID : String) : SourceStatus × List TraceEntry :=
  let tr1 : List TraceEntry := [⟨.migrateSetCapabilities "auto-converge" true, false⟩]
  if !s.setCapsOk then
    (.finished (some .setCaps), tr1 ++ mirrorDeferTrace mirrorStarted jobID)
  else
    let tr2 := tr1 ++ [⟨.migrateSetParameters MaxDowntimeMS MaxBandwidth, false⟩]
    if !s.setParamsOk then
      (.finished (some .setParams), tr2 ++ mirrorDeferTrace mirrorStarted jobID)
    else
      let uri := "tcp:" ++ FormatQEMUHost cfg.destParse cfg.destIP ++ ":" ++ RAMMigrationPort
      let tr3 := tr2 ++ [⟨.migrate uri, false⟩]
      if !s.migrateOk then
        (.finished (some .migrateStart), tr3 ++ mirrorDeferTrace mirrorStarted jobID)
      else if !s.stopOk then
        (.finished (some .stopEvent), tr3 ++ mirrorDeferTrace mirrorStarted jobID)
      else
        let pollOut := waitForMigrationComplete s.migratePolls
        let tr4 := tr3 ++ List.replicate pollOut.2 ⟨.queryMigrate, false⟩
        match pollOut.1 with
        | none => (.outOfScript, tr4)
        | some r =>
            let cancelTrace : List TraceEntry :=
              if r ≠ .completed then [⟨.migrateCancel, true⟩] else []
            let jobCancelTrace : List TraceEntry :=
              if !cfg.sharedStorage then [⟨.blockJobCancel jobID true, true⟩] else []
            let status :=
              if r ≠ .completed then SourceStatus.finished (some (.migration r))
              else SourceStatus.finished none
            (status, tr4 ++ cancelTrace ++ jobCancelTrace)

/-- `RunSource` (internal/migration/source.go): connect and handshake,
the optional drive-mirror phase with its readiness loop and deferred
cancel, then the RAM phase.  The result is the run status paired with
the full ordered monitor command trace (the `qmp_capabilities` entry is
the handshake command sent inside `NewClient`). -/
def RunSource (cfg : SourceCfg) (s : SourceScript) :
    SourceStatus × List TraceEntry :=
  if !s.connectOk then
    (.finished (some .connect), [])
  else
    let tr0 : List TraceEntry := [⟨.qmpCapabilities, false⟩]
    let jobID := "mirror-" ++ cfg.driveID
    if cfg.sharedStorage then
      let out := ramPhase cfg s false jobID
      (out.1, tr0 ++ out.2)
    else
      let targetNBD := "nbd:" ++ FormatQEMUHost cfg.destParse cfg.destIP ++ ":"
        ++ NBDPort ++ ":exportname=" ++ cfg.driveID
      let tr1 := tr0 ++ [⟨.driveMirror cfg.driveID targetNBD "full" "existing" jobID, false⟩]
      if !s.driveMirrorOk then
        (.finished (some .driveMirrorFailed), tr1)
      else
        let syncOut := waitForStorageSync jobID false s.storagePolls
        let tr2 := tr1 ++ List.replicate syncOut.2 ⟨.queryBlockJobs, false⟩
        match syncOut.1 with
        | none => (.outOfScript, tr2)
        | some .synced =>
            let out := ramPhase cfg s true jobID
            (out.1, tr2 ++ out.2)
        | some r =>
            (.finished (some (.storageSync r)), tr2 ++ mirrorDeferTrace true jobID)

/-- Number of `migrate` commands in a trace. -/
def countMigrate (tr : List TraceEntry) : Nat :=
  tr.countP (fun t => match t.cmd with | .migrate _ => true | _ => false)

/-- Whether a trace contains a `migrate_cancel` issued under a cleanup
context. -/
def hasMigrateCancel (tr : List TraceEntry) : Bool :=
  tr.any (fun t => t.cmd = .migrateCancel)

/-! ## Destination orchestrator (internal/migration/dest.go, RunDestination)

For the qdisc invariant the model tracks the physical root-qdisc state
of the tap interface through the run, the `qdiscInstalled` guard flag,
and whether the deferred removal fired at return. -/

/-- Physical state of the tap interface's root qdisc: no root qdisc, a
plug qdisc passing traffic (`release_indefinite`), or a plug qdisc
buffering (`block`; also the state right after `tc qdisc add ... plug`,
since sch_plug starts out buffering). -/
inductive QdiscPhys
  | noRoot
  | plugPass
  | plugBlocked
deriving Repr, DecidableEq

/-- Environment of one `RunDestination` run: the prior root qdisc of the
tap and the outcome of each fallible step.  `preDelOk` is the initial
idempotency `tc qdisc del`; `innerDelOk` the removal attempted when the
initial `release_indefinite` fails; `deferredDelOk` the guarded removal
run by the deferred cleanup. -/
structure DestEnv where
  initQdisc : QdiscPhys
  tapGiven : Bool
  tapPresent : Bool
  preDelOk : Bool
  addOk : Bool
  releaseInitialOk : Bool
  innerDelOk : Bool
  connectOk : Bool
  sharedStorage : Bool
  nbdStartOk : Bool
  nbdAddOk : Bool
  plugOk : Bool
  resumeOk : Bool
  unplugOk : Bool
  deferredDelOk : Bool
deriving Repr, DecidableEq

/-- Error kinds of `RunDestination`, one per fatal return site
(qdisc and GARP failures are warnings only). -/
inductive DestErr
  | connect
  | nbdStart
  | nbdAdd
  | resumeEvent
deriving Repr, DecidableEq

/-- Observable outcome of a `RunDestination` run: the returned error (if
any), the final root-qdisc state of the tap, whether a plug qdisc was
installed in step 1 (arming the guarded removal), whether control
reached the post-RESUME flush, whether that flush succeeded and
disarmed the guard, and whether the deferred removal fired at return. -/
structure DestOutcome where
  err : Option DestErr
  qdisc : QdiscPhys
  installed : Bool
  reachedFlush : Bool
  disarmed : Bool
  guardFired : Bool
deriving Repr, DecidableEq

/-- The deferred guarded qdisc removal (internal/migration/dest.go): it
runs when the guard is still armed, removing the root qdisc if the
cleanup `tc qdisc del` succeeds. -/
def qdiscDefer (armed : Bool) (delOk : Bool) (q : QdiscPhys) : QdiscPhys × Bool :=
  if armed then ((if delOk then .noRoot else q), true) else (q, false)

/-- Step 1 of `RunDestination`: the qdisc installation attempt.
Returns the resulting physical qdisc state and the `qdiscInstalled`
flag.  When a tap is given and present: delete any prior root qdisc
(ignored), `tc qdisc add ... plug limit 32768` (which leaves sch_plug
buffering), then immediately `release_indefinite`; if the release
fails the just-added qdisc is removed again under a cleanup context. -/
def destQdiscSetup (env : DestEnv) : QdiscPhys × Bool :=
  if env.tapGiven && env.tapPresent then
    let q1 := if env.preDelOk then QdiscPhys.noRoot else env.initQdisc
    if !env.addOk then (q1, false)
    else if env.releaseInitialOk then (.plugPass, true)
    else ((if env.innerDelOk then .noRoot else .plugBlocked), false)
  else
    (env.initQdisc, false)

/-- `RunDestination` (internal/migration/dest.go), reduced to the
observations in `DestOutcome`.  Fatal steps are connect,
`nbd-server-start`, `nbd-server-add` and the RESUME wait; on each fatal
return and on the success return the deferred removal runs if still
armed.  Step 5 releases the plug after RESUME and disarms the guard
only on success. -/
def RunDestination (env : DestEnv) : DestOutcome :=
  let stepOne := destQdiscSetup env
  let q1 := stepOne.1
  let installed := stepOne.2
  if !env.connectOk then
    let fin := qdiscDefer installed env.deferredDelOk q1
    { err := some .connect, qdisc := fin.1, installed := installed,
      reachedFlush := false, disarmed := false, guardFired := fin.2 }
  else if !env.sharedStorage && !env.nbdStartOk then
    let fin := qdiscDefer installed env.deferredDelOk q1
    { err := some .nbdStart, qdisc := fin.1, installed := installed,
      reachedFlush := false, disarmed := false, guardFired := fin.2 }
  else if !env.sharedStorage && !env.nbdAddOk then
    let fin := qdiscDefer installed env.deferredDelOk q1
    { err := some .nbdAdd, qdisc := fin.1, installed := installed,
      reachedFlush := false, disarmed := false, guardFired := fin.2 }
  else
    let q2 := if installed && env.plugOk then QdiscPhys.plugBlocked else q1
    if !env.resumeOk then
      let fin := qdiscDefer installed env.deferredDelOk q2
      { err := some .resumeEvent, qdisc := fin.1, installed := installed,
        reachedFlush := false, disarmed := false, guardFired := fin.2 }
    else
      let flushed := installed && env.unplugOk
      let q3 := if flushed then QdiscPhys.plugPass else q2
      let armed := installed && !flushed
      let fin := qdiscDefer armed env.deferredDelOk q3
      { err := none, qdisc := fin.1, installed := installed,
        reachedFlush := installed, disarmed := flushed, guardFired := fin.2 }

/-! ## Shared lemmas about traces and loops -/

theorem countMigrate_append (a b : List TraceEntry) :
    countMigrate (a ++ b) = countMigrate a + countMigrate b := by
  simp [countMigrate, List.countP_append]

theorem countMigrate_replicate (n : Nat) (t : TraceEntry)
    (h : countMigrate [t] = 0) : countMigrate (List.replicate n t) = 0 := by
  induction n with
  | zero => simp [countMigrate]
  | succ k ih =>
      rw [List.replicate_succ]
      simp only [countMigrate, List.countP_cons] at h ih ⊢
      omega

theorem countMigrate_mirrorDefer (m : Bool) (j : String) :
    countMigrate (mirrorDeferTrace m j) = 0 := by
  cases m <;> simp [mirrorDeferTrace, countMigrate]

theorem countMigrate_ramPhase (cfg : SourceCfg) (s : SourceScript)
    (m : Bool) (j : String) : countMigrate (ramPhase cfg s m j).2 ≤ 1 := by
  unfold ramPhase
  by_cases h1 : s.setCapsOk <;> by_cases h2 : s.setParamsOk <;>
    by_cases h3 : s.migrateOk <;> by_cases h4 : s.stopOk <;>
    simp only [h1, h2, h3, h4, Bool.not_true, Bool.not_false, ite_true, ite_false,
      Bool.false_eq_true, if_false, if_true]
  all_goals
    try (cases m <;>
      simp [mirrorDeferTrace, countMigrate, List.countP_append, List.countP_cons]; done)
  rcases hp : (waitForMigrationComplete s.migratePolls).1 with _ | r
  · have hrep := countMigrate_replicate ((waitForMigrationComplete s.migratePolls)).2
      ⟨.queryMigrate, false⟩ (by simp [countMigrate])
    simp only [countMigrate, List.countP_cons, List.countP_nil] at hrep
    simp [hp, countMigrate, List.countP_append, List.countP_cons, hrep]
  · have hrep := countMigrate_replicate ((waitForMigrationComplete s.migratePolls)).2
      ⟨.queryMigrate, false⟩ (by simp [countMigrate])
    simp only [countMigrate, List.countP_cons, List.countP_nil] at hrep
    by_cases hr : r = MigResult.completed <;>
      simp [hp, hr, countMigrate, List.countP_append, List.countP_cons, hrep]

theorem countMigrate_RunSource (cfg : SourceCfg) (s : SourceScript) :
    countMigrate (RunSource cfg s).2 ≤ 1 := by
  unfold RunSource
  by_cases h1 : s.connectOk
  · by_cases h2 : cfg.sharedStorage
    · have h3 := countMigrate_ramPhase cfg s false ("mirror-" ++ cfg.driveID)
      simp only [h1, h2, Bool.not_true, ite_true, ite_false, Bool.false_eq_true,
        if_false, if_true]
      rw [countMigrate_append]
      have h4 : countMigrate [TraceEntry.mk Cmd.qmpCapabilities false] = 0 := by
        simp [countMigrate]
      omega
    · by_cases h5 : s.driveMirrorOk
      · simp only [h1, h2, h5, Bool.not_true, Bool.not_false, ite_true, ite_false,
          Bool.false_eq_true, if_false, if_true]
        have hrep : countMigrate (List.replicate
            (waitForStorageSync ("mirror-" ++ cfg.driveID) false s.storagePolls).2
            ⟨Cmd.queryBlockJobs, false⟩) = 0 :=
          countMigrate_replicate _ _ (by simp [countMigrate])
        simp only [countMigrate] at hrep
        rcases hs : (waitForStorageSync ("mirror-" ++ cfg.driveID) false s.storagePolls).1
          with _ | r
        · simp [hs, countMigrate, List.countP_append, List.countP_cons, hrep]
        · have h3 := countMigrate_ramPhase cfg s true ("mirror-" ++ cfg.driveID)
          cases r <;>
            (simp only [hs]
             simp [mirrorDeferTrace, countMigrate, List.countP_append,
               List.countP_cons, hrep] at h3 ⊢
             try omega)
      · simp [h1, h2, h5, countMigrate, List.countP_cons]
  · simp [h1, countMigrate]

/-- Inputs of end-to-end scenario 1 (shared-storage IPv4 source happy
path): dest-ip 10.0.1.42 (IPv4), vm-ip 10.244.1.15, shared-storage,
tunnel-mode ipip. -/
def sourceScenario1Cfg : SourceCfg :=
  { destIP := "10.0.1.42", destParse := some .v4, vmIP := "10.244.1.15",
    driveID := "drive-virtio-disk0", sharedStorage := true, tunnelMode := "ipip" }

/-- Scenario-1 environment: every step succeeds; `query-migrate`
reports "active" once and then "completed", well inside the 1-hour
window. -/
def sourceScenario1Script : SourceScript :=
  { connectOk := true, driveMirrorOk := true, storagePolls := [],
    setCapsOk := true, setParamsOk := true, migrateOk := true, stopOk := true,
    tunnelOk := true,
    migratePolls :=
      [⟨.info ⟨"active", ""⟩, false, false⟩,
       ⟨.info ⟨"completed", ""⟩, false, false⟩] }

/-- Claim C1: on every source-side run the orchestrator issues the
`migrate` command at most once — never twice — and on the
shared-storage happy path of scenario 1 the monitor command sequence is
exactly `qmp_capabilities`, `migrate-set-capabilities`
(auto-converge=true), `migrate-set-parameters` (downtime-limit=50,
max-bandwidth=10000000000), a single `migrate`
(uri="tcp:10.0.1.42:4444"), followed by the STOP wait (no monitor
command) and the `query-migrate` polls. -/
theorem RunSource_issues_migrate_exactly_once :
    (∀ cfg s, countMigrate (RunSource cfg s).2 ≤ 1)
    ∧ RunSource sourceScenario1Cfg sourceScenario1Script =
        (.finished none,
          [⟨.qmpCapabilities, false⟩,
           ⟨.migrateSetCapabilities "auto-converge" true, false⟩,
           ⟨.migrateSetParameters 50 10000000000, false⟩,
           ⟨.migrate "tcp:10.0.1.42:4444", false⟩,
           ⟨.queryMigrate, false⟩, ⟨.queryMigrate, false⟩])
    ∧ countMigrate (RunSource sourceScenario1Cfg sourceScenario1Script).2 = 1 :=
  ⟨countMigrate_RunSource, by decide, by decide⟩

theorem hasMigrateCancel_append (a b : List TraceEntry) :
    hasMigrateCancel (a ++ b) = (hasMigrateCancel a || hasMigrateCancel b) := by
  simp [hasMigrateCancel, List.any_append]

theorem hasMigrateCancel_replicate (n : Nat) (t : TraceEntry)
    (h : hasMigrateCancel [t] = false) :
    hasMigrateCancel (List.replicate n t) = false := by
  induction n with
  | zero => simp [hasMigrateCancel]
  | succ k ih =>
      rw [List.replicate_succ]
      simp only [hasMigrateCancel, List.any_cons, List.any_nil, Bool.or_false] at h ih ⊢
      simp [h, ih]

theorem ramPhase_migration_mem_cancel (cfg : SourceCfg) (s : SourceScript)
    (m : Bool) (j : String) (r : MigResult)
    (h : (ramPhase cfg s m j).1 = .finished (some (.migration r))) :
    TraceEntry.mk .migrateCancel true ∈ (ramPhase cfg s m j).2 := by
  unfold ramPhase at h ⊢
  by_cases h1 : s.setCapsOk <;> by_cases h2 : s.setParamsOk <;>
    by_cases h3 : s.migrateOk <;> by_cases h4 : s.stopOk <;>
    simp only [h1, h2, h3, h4, Bool.not_true, Bool.not_false, ite_true, ite_false,
      Bool.false_eq_true, if_false, if_true] at h ⊢ <;>
    try injections
  revert h
  generalize waitForMigrationComplete s.migratePolls = P
  obtain ⟨res, n⟩ := P
  intro h
  cases res with
  | none =>
      dsimp only at h
      injections
  | some r2 =>
      dsimp only at h ⊢
      by_cases hr : r2 = MigResult.completed
      · simp only [hr, ne_eq, not_true_eq_false, ite_false, if_false] at h
        injections
      · simp only [ne_eq, hr, not_false_eq_true, ite_true, if_true] at h ⊢
        simp [List.mem_append]

theorem ramPhase_success_no_cancel (cfg : SourceCfg) (s : SourceScript)
    (m : Bool) (j : String)
    (h : (ramPhase cfg s m j).1 = .finished none) :
    hasMigrateCancel (ramPhase cfg s m j).2 = false := by
  have hrep : ∀ n : Nat, hasMigrateCancel
      (List.replicate n ⟨Cmd.queryMigrate, false⟩) = false := fun n =>
    hasMigrateCancel_replicate n _ (by simp [hasMigrateCancel])
  simp only [hasMigrateCancel] at hrep
  unfold ramPhase at h ⊢
  by_cases h1 : s.setCapsOk <;> by_cases h2 : s.setParamsOk <;>
    by_cases h3 : s.migrateOk <;> by_cases h4 : s.stopOk <;>
    simp only [h1, h2, h3, h4, Bool.not_true, Bool.not_false, ite_true, ite_false,
      Bool.false_eq_true, if_false, if_true] at h ⊢ <;>
    try injections
  revert h
  generalize waitForMigrationComplete s.migratePolls = P
  obtain ⟨res, n⟩ := P
  intro h
  cases res with
  | none =>
      dsimp only at h
      injections
  | some r2 =>
      dsimp only at h ⊢
      by_cases hr : r2 = MigResult.completed
      · by_cases hss : cfg.sharedStorage <;>
          simp [hr, hss, hasMigrateCancel, List.any_append, hrep n]
      · simp only [ne_eq, hr, not_false_eq_true, ite_true, if_true] at h
        injections

theorem RunSource_migration_error_mem_cancel (cfg : SourceCfg) (s : SourceScript)
    (r : MigResult)
    (h : (RunSource cfg s).1 = .finished (some (.migration r))) :
    TraceEntry.mk .migrateCancel true ∈ (RunSource cfg s).2 := by
  unfold RunSource at h ⊢
  by_cases h1 : s.connectOk
  · by_cases h2 : cfg.sharedStorage
    · simp only [h1, h2, Bool.not_true, ite_true, ite_false, Bool.false_eq_true,
        if_false, if_true] at h ⊢
      exact List.mem_append_right _ (ramPhase_migration_mem_cancel cfg s false _ r h)
    · by_cases h5 : s.driveMirrorOk
      · simp only [h1, h2, h5, Bool.not_true, Bool.not_false, ite_true, ite_false,
          Bool.false_eq_true, if_false, if_true] at h ⊢
        revert h
        generalize waitForStorageSync ("mirror-" ++ cfg.driveID) false s.storagePolls = Q
        obtain ⟨res2, n2⟩ := Q
        intro h
        cases res2 with
        | none =>
            dsimp only at h
            injections
        | some r2 =>
            cases r2 <;> dsimp only at h ⊢ <;>
              first
              | (exact List.mem_append_right _
                  (ramPhase_migration_mem_cancel cfg s true _ r h))
              | injections
      · simp only [h1, h2, h5, Bool.not_true, Bool.not_false, ite_true, ite_false,
          Bool.false_eq_true, if_false, if_true] at h
        injections
  · simp only [h1, Bool.not_false, Bool.not_true, ite_true, if_true,
      Bool.false_eq_true] at h
    injections

theorem RunSource_success_no_cancel (cfg : SourceCfg) (s : SourceScript)
    (h : (RunSource cfg s).1 = .finished none) :
    hasMigrateCancel (RunSource cfg s).2 = false := by
  have hrep : ∀ n : Nat, hasMigrateCancel
      (List.replicate n ⟨Cmd.queryBlockJobs, false⟩) = false := fun n =>
    hasMigrateCancel_replicate n _ (by simp [hasMigrateCancel])
  unfold RunSource at h ⊢
  by_cases h1 : s.connectOk
  · by_cases h2 : cfg.sharedStorage
    · simp only [h1, h2, Bool.not_true, ite_true, ite_false, Bool.false_eq_true,
        if_false, if_true] at h ⊢
      rw [hasMigrateCancel_append]
      rw [ramPhase_success_no_cancel cfg s false _ h]
      simp [hasMigrateCancel]
    · by_cases h5 : s.driveMirrorOk
      · simp only [h1, h2, h5, Bool.not_true, Bool.not_false, ite_true, ite_false,
          Bool.false_eq_true, if_false, if_true] at h ⊢
        revert h
        generalize waitForStorageSync ("mirror-" ++ cfg.driveID) false s.storagePolls = Q
        obtain ⟨res2, n2⟩ := Q
        intro h
        cases res2 with
        | none =>
            dsimp only at h
            injections
        | some r2 =>
            cases r2 <;> dsimp only at h ⊢ <;>
              first
              | (rw [hasMigrateCancel_append,
                  ramPhase_success_no_cancel cfg s true _ h]
                 simp [hasMigrateCancel, hasMigrateCancel_append, hrep n2])
              | injections
      · simp only [h1, h2, h5, Bool.not_true, Bool.not_false, ite_true, ite_false,
          Bool.false_eq_true, if_false, if_true] at h
        injections
  · simp only [h1, Bool.not_false, Bool.not_true, ite_true, if_true,
      Bool.false_eq_true] at h
    injections

/-- Claim C3: whenever the `query-migrate` poll loop ends in a terminal
non-success outcome, the orchestrator issues `migrate_cancel` under a
cleanup context before returning; a run that finishes without error
(migration completed) never issues `migrate_cancel`.  The loop maps
status "failed" to the migration-failed error carrying the wire
`error-desc`, status "cancelled" to the distinct migration-cancelled
error, a passed 1-hour deadline to the timeout error naming the last
status, and status "completed" to success — and the three failure
outcomes are pairwise distinct values. -/
theorem migration_failure_triggers_migrate_cancel :
    (∀ cfg s r, (RunSource cfg s).1 = .finished (some (.migration r)) →
        TraceEntry.mk .migrateCancel true ∈ (RunSource cfg s).2)
    ∧ (∀ cfg s, (RunSource cfg s).1 = .finished none →
        hasMigrateCancel (RunSource cfg s).2 = false)
    ∧ (∀ i rest late ctxd, i.status = "failed" →
        (waitForMigrationComplete (⟨.info i, late, ctxd⟩ :: rest)).1 =
          some (.failed i.errorDesc))
    ∧ (∀ i rest late ctxd, i.status = "cancelled" →
        (waitForMigrationComplete (⟨.info i, late, ctxd⟩ :: rest)).1 =
          some .cancelled)
    ∧ (∀ i rest ctxd, i.status ≠ "completed" → i.status ≠ "failed" →
        i.status ≠ "cancelled" →
        (waitForMigrationComplete (⟨.info i, true, ctxd⟩ :: rest)).1 =
          some (.timedOut i.status))
    ∧ (∀ i rest late ctxd, i.status = "completed" →
        (waitForMigrationComplete (⟨.info i, late, ctxd⟩ :: rest)).1 =
          some .completed)
    ∧ (∀ d l, MigResult.failed d ≠ .cancelled ∧ MigResult.failed d ≠ .timedOut l
        ∧ MigResult.cancelled ≠ .timedOut l) := by
  refine ⟨RunSource_migration_error_mem_cancel, RunSource_success_no_cancel,
    ?_, ?_, ?_, ?_, ?_⟩
  · intro i rest late ctxd h
    simp [waitForMigrationComplete, h]
  · intro i rest late ctxd h
    simp [waitForMigrationComplete, h]
  · intro i rest ctxd h1 h2 h3
    simp [waitForMigrationComplete, h1, h2, h3]
  · intro i rest late ctxd h
    simp [waitForMigrationComplete, h]
  · intro d l
    refine ⟨by simp, by simp, by simp⟩

/-- Inputs of end-to-end scenario 4 (migration reports failed):
shared storage, and after STOP the first `query-migrate` already
returns status "failed" with error-desc "out of memory". -/
def sourceScenario4Script : SourceScript :=
  { connectOk := true, driveMirrorOk := true, storagePolls := [],
    setCapsOk := true, setParamsOk := true, migrateOk := true, stopOk := true,
    tunnelOk := true,
    migratePolls := [⟨.info ⟨"failed", "out of memory"⟩, false, false⟩] }

/-- Witness for C3 at scenario 4: the failed run issues `migrate_cancel`
under a cleanup context, the success run of scenario 1 does not, and the
classification equations hold at the concrete "failed"/"cancelled"/
timeout/"completed" polls. -/
theorem migration_failure_triggers_migrate_cancel_witness :
    TraceEntry.mk .migrateCancel true ∈
      (RunSource sourceScenario1Cfg sourceScenario4Script).2
    ∧ hasMigrateCancel (RunSource sourceScenario1Cfg sourceScenario1Script).2 = false
    ∧ (waitForMigrationComplete [⟨.info ⟨"failed", "out of memory"⟩, false, false⟩]).1 =
        some (.failed "out of memory")
    ∧ (waitForMigrationComplete [⟨.info ⟨"cancelled", ""⟩, false, false⟩]).1 =
        some .cancelled
    ∧ (waitForMigrationComplete [⟨.info ⟨"active", ""⟩, true, false⟩]).1 =
        some (.timedOut "active")
    ∧ (waitForMigrationComplete [⟨.info ⟨"completed", ""⟩, false, false⟩]).1 =
        some .completed
    ∧ (MigResult.failed "out of memory" ≠ .cancelled
        ∧ MigResult.failed "out of memory" ≠ .timedOut "active"
        ∧ MigResult.cancelled ≠ .timedOut "active") :=
  ⟨migration_failure_triggers_migrate_cancel.1 sourceScenario1Cfg
      sourceScenario4Script (.failed "out of memory") (by decide),
   migration_failure_triggers_migrate_cancel.2.1 sourceScenario1Cfg
      sourceScenario1Script (by decide),
   migration_failure_triggers_migrate_cancel.2.2.1 ⟨"failed", "out of memory"⟩
      [] false false (by decide),
   migration_failure_triggers_migrate_cancel.2.2.2.1 ⟨"cancelled", ""⟩
      [] false false (by decide),
   migration_failure_triggers_migrate_cancel.2.2.2.2.1 ⟨"active", ""⟩
      [] false (by decide) (by decide) (by decide),
   migration_failure_triggers_migrate_cancel.2.2.2.2.2.1 ⟨"completed", ""⟩
      [] false false (by decide),
   migration_failure_triggers_migrate_cancel.2.2.2.2.2.2 "out of memory" "active"⟩

/-- Claim C2: cancelling the caller's context during an in-flight
monitor call neither closes the socket nor clears the session handle.
The in-flight `Execute` returns the context's error with the session
state untouched (whether the read unblocks because the advanced
deadline fires on an empty wire or surfaces as a timeout/IO error), a
subsequent `Execute` under a fresh context succeeds on its reply rather
than failing with the "connection closed" kind, and an in-flight
`WaitForEvent` behaves the same way. -/
theorem cancelled_call_keeps_session_open :
    (∀ (c : Client) (cmd : String), c.connOpen = true → c.wire = [] →
        Client.Execute c ⟨true⟩ cmd true true = (.ctxCancelled, c))
    ∧ (∀ (c : Client) (cmd : String) (rest : List ReadOutcome),
        c.connOpen = true → c.wire = .timeoutErr :: rest →
        (Client.Execute c ⟨true⟩ cmd true true).1 = .ctxCancelled
          ∧ (Client.Execute c ⟨true⟩ cmd true true).2.connOpen = true
          ∧ (Client.Execute c ⟨true⟩ cmd true true).2.sockOpen = c.sockOpen)
    ∧ (∀ (c : Client) (cmd2 : String) (pay : Option String) (w2 : List ReadOutcome),
        c.connOpen = true →
        (Client.Execute { c with wire := .line { ret := pay } :: w2 } ⟨false⟩
            cmd2 true true).1 = .ok pay)
    ∧ (∀ (c : Client) (name : String), c.connOpen = true → c.wire = [] →
        removeFirstEvent name c.events = none →
        Client.WaitForEvent c ⟨true⟩ name true = (.ctxCancelled, c)) := by
  refine ⟨?_, ?_, ?_, ?_⟩
  · intro c cmd h1 h2
    obtain ⟨co, so, w, evs⟩ := c
    simp only at h1 h2
    subst h1; subst h2
    simp [Client.Execute, executeLoop]
  · intro c cmd rest h1 h2
    obtain ⟨co, so, w, evs⟩ := c
    simp only at h1 h2
    subst h1; subst h2
    simp [Client.Execute, executeLoop]
  · intro c cmd2 pay w2 h1
    simp [Client.Execute, executeLoop, h1, Response.event, Response.error]
  · intro c name h1 h2 h3
    obtain ⟨co, so, w, evs⟩ := c
    simp only at h1 h2 h3
    subst h1; subst h2
    simp [Client.WaitForEvent, waitLoop, h3]

/-- Witness for C2 at a concrete session: an open client with an empty
wire whose in-flight execute is cancelled, then a cleanup command with a
fresh context succeeding, and a cancelled event wait. -/
theorem cancelled_call_keeps_session_open_witness :
    Client.Execute ⟨true, true, [], []⟩ ⟨true⟩ "query-migrate" true true =
      (.ctxCancelled, ⟨true, true, [], []⟩)
    ∧ (Client.Execute ⟨true, true, [.line { ret := some "{}" }], []⟩ ⟨false⟩
        "migrate_cancel" true true).1 = .ok (some "{}")
    ∧ Client.WaitForEvent ⟨true, true, [], []⟩ ⟨true⟩ "STOP" true =
      (.ctxCancelled, ⟨true, true, [], []⟩) :=
  ⟨cancelled_call_keeps_session_open.1 ⟨true, true, [], []⟩ "query-migrate"
      (by decide) (by decide),
   by
    have h := cancelled_call_keeps_session_open.2.2.1
      ⟨true, true, [], []⟩ "migrate_cancel" (some "{}") [] (by decide)
    simpa using h,
   cancelled_call_keeps_session_open.2.2.2 ⟨true, true, [], []⟩ "STOP"
      (by decide) (by decide) (by decide)⟩

theorem executeLoop_events_eq (ctx : Ctx) (cmd : String) :
    ∀ (w : List ReadOutcome) (evs : List Response),
      (executeLoop ctx cmd w evs).2.2 = evs ++ eventsUntilReply w := by
  intro w
  induction w with
  | nil => intro evs; simp [executeLoop, eventsUntilReply]
  | cons a rest ih =>
      intro evs
      cases a with
      | line r =>
          by_cases he : r.event = ""
          · cases hre : r.error <;>
              simp [executeLoop, eventsUntilReply, he, hre]
          · simp only [executeLoop, eventsUntilReply, he, ne_eq,
              not_false_eq_true, ite_true, if_true]
            rw [ih (evs ++ [r])]
            simp [eventsUntilReply, he]
      | badLine => simp [executeLoop, eventsUntilReply]
      | timeoutErr => simp [executeLoop, eventsUntilReply]
      | ioError => simp [executeLoop, eventsUntilReply]

theorem removeFirstEvent_decomp (name : String) :
    ∀ (pre : List Response) (e : Response) (post : List Response),
      e.event = name → (∀ x ∈ pre, x.event ≠ name) →
      removeFirstEvent name (pre ++ e :: post) = some (pre ++ post) := by
  intro pre
  induction pre with
  | nil => intro e post he _; simp [removeFirstEvent, he]
  | cons p rest ih =>
      intro e post he hpre
      have hp : p.event ≠ name := hpre p (by simp)
      simp only [List.cons_append, removeFirstEvent, hp, ite_false, if_false,
        List.append_eq]
      rw [ih e post he (fun x hx => hpre x (List.mem_cons_of_mem p hx))]

theorem removeFirstEvent_none_all (name : String) :
    ∀ (l : List Response), removeFirstEvent name l = none →
      ∀ x ∈ l, x.event ≠ name := by
  intro l
  induction l with
  | nil => intro _ x hx; simp at hx
  | cons p rest ih =>
      intro h x hx
      rw [List.mem_cons] at hx
      by_cases hp : p.event = name
      · simp [removeFirstEvent, hp] at h
      · simp only [removeFirstEvent, hp, ite_false, if_false] at h
        rcases hx with hx | hx
        · subst hx; exact hp
        · rcases hr : removeFirstEvent name rest with _ | l2
          · exact ih hr x hx
          · rw [hr] at h; simp at h

theorem removeFirstEvent_isSome_of_any (name : String) (l : List Response)
    (h : l.any (fun e => e.event = name) = true) :
    (removeFirstEvent name l).isSome = true := by
  rcases hr : removeFirstEvent name l with _ | l2
  · exfalso
    rcases List.any_eq_true.mp h with ⟨x, hx, hname⟩
    exact removeFirstEvent_none_all name l hr x hx (by simpa using hname)
  · rfl

/-- Claim C4: every event line received while reading the reply of an
`Execute` is appended to the session's FIFO buffer in wire order (never
dropped); a `WaitForEvent` whose name matches a buffered event returns
successfully, consuming the oldest matching entry and preserving the
order of the remainder; an event observed during an `Execute` is
therefore observable by a subsequent `WaitForEvent` of the same name;
and when no buffered entry matches, the wire-reading wait discards
non-matching lines without re-buffering them (the buffer is unchanged). -/
theorem events_buffered_fifo_and_consumed :
    (∀ (c : Client) (ctx : Ctx) (cmd : String), c.connOpen = true →
        (Client.Execute c ctx cmd true true).2.events =
          c.events ++ eventsUntilReply c.wire)
    ∧ (∀ (c : Client) (ctx : Ctx) (name : String) (sd : Bool)
        (pre : List Response) (e : Response) (post : List Response),
        c.events = pre ++ e :: post → e.event = name →
        (∀ x ∈ pre, x.event ≠ name) →
        (Client.WaitForEvent c ctx name sd).1 = .ok
          ∧ (Client.WaitForEvent c ctx name sd).2.events = pre ++ post)
    ∧ (∀ (c : Client) (ctx ctx2 : Ctx) (cmd name : String) (sd : Bool),
        c.connOpen = true →
        (eventsUntilReply c.wire).any (fun e => e.event = name) = true →
        (Client.WaitForEvent (Client.Execute c ctx cmd true true).2 ctx2 name sd).1
          = .ok)
    ∧ (∀ (c : Client) (ctx : Ctx) (name : String) (sd : Bool),
        removeFirstEvent name c.events = none →
        (Client.WaitForEvent c ctx name sd).2.events = c.events) := by
  refine ⟨?_, ?_, ?_, ?_⟩
  · intro c ctx cmd h1
    simp [Client.Execute, h1, executeLoop_events_eq]
  · intro c ctx name sd pre e post hdec he hpre
    have h := removeFirstEvent_decomp name pre e post he hpre
    rw [← hdec] at h
    constructor <;> simp [Client.WaitForEvent, h]
  · intro c ctx ctx2 cmd name sd h1 h2
    have hev : (Client.Execute c ctx cmd true true).2.events =
        c.events ++ eventsUntilReply c.wire := by
      simp [Client.Execute, h1, executeLoop_events_eq]
    have hany : ((Client.Execute c ctx cmd true true).2.events).any
        (fun e => e.event = name) = true := by
      rw [hev]
      simp only [List.any_append, Bool.or_eq_true]
      exact Or.inr h2
    have hs := removeFirstEvent_isSome_of_any name _ hany
    rcases hr : removeFirstEvent name (Client.Execute c ctx cmd true true).2.events
      with _ | l2
    · rw [hr] at hs; simp at hs
    · simp [Client.WaitForEvent, hr]
  · intro c ctx name sd h
    by_cases h1 : c.connOpen <;> by_cases h2 : sd <;>
      simp [Client.WaitForEvent, h, h1, h2]

/-- Witness for C4: a concrete execute whose reply is preceded by two
events; both land in the buffer in wire order, a wait for the first
event consumes it leaving the second, and a wait on a fresh name leaves
the buffer unchanged. -/
theorem events_buffered_fifo_and_consumed_witness :
    (Client.Execute ⟨true, true,
        [.line { event := "STOP" }, .line { event := "RESUME" },
         .line { ret := some "{}" }], []⟩ ⟨false⟩ "migrate" true true).2.events =
      [{ event := "STOP" }, { event := "RESUME" }]
    ∧ (Client.WaitForEvent ⟨true, true, [],
        [{ event := "STOP" }, { event := "RESUME" }]⟩ ⟨false⟩ "STOP" true).1 = .ok
    ∧ (Client.WaitForEvent ⟨true, true, [],
        [{ event := "STOP" }, { event := "RESUME" }]⟩ ⟨false⟩ "STOP" true).2.events =
      [{ event := "RESUME" }]
    ∧ (Client.WaitForEvent ⟨true, true, [.line { event := "OTHER" }, .line { event := "X" }], []⟩
        ⟨false⟩ "X" true).2.events = [] := by
  refine ⟨?_, ?_, ?_, ?_⟩
  · have h := events_buffered_fifo_and_consumed.1
      ⟨true, true, [.line { event := "STOP" }, .line { event := "RESUME" },
        .line { ret := some "{}" }], []⟩ ⟨false⟩ "migrate" (by decide)
    rw [h]; decide
  · exact (events_buffered_fifo_and_consumed.2.1
      ⟨true, true, [], [{ event := "STOP" }, { event := "RESUME" }]⟩ ⟨false⟩ "STOP"
      true [] { event := "STOP" } [{ event := "RESUME" }] (by decide) (by decide)
      (by intro x hx; simp at hx)).1
  · exact (events_buffered_fifo_and_consumed.2.1
      ⟨true, true, [], [{ event := "STOP" }, { event := "RESUME" }]⟩ ⟨false⟩ "STOP"
      true [] { event := "STOP" } [{ event := "RESUME" }] (by decide) (by decide)
      (by intro x hx; simp at hx)).2
  · exact events_buffered_fifo_and_consumed.2.2.2
      ⟨true, true, [.line { event := "OTHER" }, .line { event := "X" }], []⟩
      ⟨false⟩ "X" true (by decide)

/-- An open session whose pending wire traffic is a STOP event followed
by the reply of the current command — the state of a client right
before an `Execute` whose reply was preceded by the STOP event. -/
def bufferedStopClient : Client :=
  { connOpen := true, sockOpen := true,
    wire := [.line { event := "STOP" }, .line { ret := some "{}" }],
    events := [] }

/-- Counterexample to claim C5 as stated: run an `Execute` that buffers
the STOP event, `Close` the session, then call `WaitForEvent "STOP"`.
The execute succeeds, the session is closed (`connOpen = false`), yet
the wait returns success from the buffered event instead of failing
with the "connection closed" kind — because `WaitForEvent` scans the
event buffer before testing `conn == nil`. -/
theorem wait_after_close_can_succeed :
    (Client.Execute bufferedStopClient ⟨false⟩ "migrate" true true).1 = .ok (some "{}")
    ∧ ((Client.Execute bufferedStopClient ⟨false⟩ "migrate" true true).2.Close
        false).2.connOpen = false
    ∧ (Client.WaitForEvent ((Client.Execute bufferedStopClient ⟨false⟩ "migrate"
        true true).2.Close false).2 ⟨false⟩ "STOP" true).1 = .ok
    ∧ (Client.WaitForEvent ((Client.Execute bufferedStopClient ⟨false⟩ "migrate"
        true true).2.Close false).2 ⟨false⟩ "STOP" true).1 ≠ .connClosed "STOP" := by
  refine ⟨by decide, by decide, by decide, by decide⟩

/-- Claim C5, amended: after `Close`, every subsequent `Execute` fails
with the "connection closed" kind, and `WaitForEvent` fails with that
kind *unless* an event of the requested name is already in the buffer,
in which case it succeeds by consuming it; `Close` itself is
idempotent — any second or later call returns nil. -/
theorem closed_session_fails_and_close_idempotent :
    (∀ (c : Client) (ctx : Ctx) (cmd : String) (sd w : Bool),
        c.connOpen = false →
        (Client.Execute c ctx cmd sd w).1 = .connClosed cmd)
    ∧ (∀ (c : Client) (ctx : Ctx) (name : String) (sd : Bool),
        c.connOpen = false → removeFirstEvent name c.events = none →
        (Client.WaitForEvent c ctx name sd).1 = .connClosed name)
    ∧ (∀ (c : Client) (ctx : Ctx) (name : String) (sd : Bool)
        (evs2 : List Response),
        removeFirstEvent name c.events = some evs2 →
        (Client.WaitForEvent c ctx name sd).1 = .ok)
    ∧ (∀ (c : Client) (e1 e2 : Bool),
        (((c.Close e1).2).Close e2).1 = none) := by
  refine ⟨?_, ?_, ?_, ?_⟩
  · intro c ctx cmd sd w h
    simp [Client.Execute, h]
  · intro c ctx name sd h1 h2
    simp [Client.WaitForEvent, h1, h2]
  · intro c ctx name sd evs2 h
    simp [Client.WaitForEvent, h]
  · intro c e1 e2
    by_cases h : c.connOpen <;> simp [Client.Close, h]

/-- Witness for amended C5: a concrete closed session rejects both
operations with the connection-closed kind, a closed session with a
buffered STOP still answers the STOP wait, and a double close on an
open session returns nil the second time. -/
theorem closed_session_fails_and_close_idempotent_witness :
    (Client.Execute ⟨false, false, [], []⟩ ⟨false⟩ "query-migrate" true true).1 =
      .connClosed "query-migrate"
    ∧ (Client.WaitForEvent ⟨false, false, [], []⟩ ⟨false⟩ "RESUME" true).1 =
      .connClosed "RESUME"
    ∧ (Client.WaitForEvent ⟨false, false, [], [{ event := "STOP" }]⟩ ⟨false⟩
        "STOP" true).1 = .ok
    ∧ ((Client.Close (Client.Close ⟨true, true, [], []⟩ false).2 false)).1 = none :=
  ⟨closed_session_fails_and_close_idempotent.1 ⟨false, false, [], []⟩ ⟨false⟩
      "query-migrate" true true (by decide),
   closed_session_fails_and_close_idempotent.2.1 ⟨false, false, [], []⟩ ⟨false⟩
      "RESUME" true (by decide) (by decide),
   closed_session_fails_and_close_idempotent.2.2.1
      ⟨false, false, [], [{ event := "STOP" }]⟩ ⟨false⟩ "STOP" true [] (by decide),
   closed_session_fails_and_close_idempotent.2.2.2 ⟨true, true, [], []⟩ false false⟩

/-- Claim C6: classification of the storage-readiness polling loop.  A
`query-block-jobs` result without the mirror job fails with the
"did not appear" error once the 30 s appear deadline has passed, and
with the "disappeared" error if the job had been seen before; a job in
terminal status "concluded" or "null" without `ready` fails as
terminal; a `ready` job yields success; and an iteration that decides
nothing else fails with the timeout error naming the job once the
2-hour sync deadline has passed — whether the job is still absent (and
the appear deadline has not fired) or present but in progress. -/
theorem storage_sync_loop_classification :
    (∀ (jobID : String) (p : StoragePoll) (rest : List StoragePoll)
        (l : List BlockJobInfo),
        p.outcome = .jobs l → findJob jobID l = none → p.lateAppear = true →
        (waitForStorageSync jobID false (p :: rest)).1 =
          some (.didNotAppear jobID))
    ∧ (∀ (jobID : String) (p : StoragePoll) (rest : List StoragePoll)
        (l : List BlockJobInfo),
        p.outcome = .jobs l → findJob jobID l = none →
        (waitForStorageSync jobID true (p :: rest)).1 =
          some (.disappeared jobID))
    ∧ (∀ (jobID : String) (seen : Bool) (p : StoragePoll)
        (rest : List StoragePoll) (l : List BlockJobInfo) (j : BlockJobInfo),
        p.outcome = .jobs l → findJob jobID l = some j → j.ready = false →
        (j.status = "concluded" ∨ j.status = "null") →
        (waitForStorageSync jobID seen (p :: rest)).1 =
          some (.terminalState jobID j.status))
    ∧ (∀ (jobID : String) (seen : Bool) (p : StoragePoll)
        (rest : List StoragePoll) (l : List BlockJobInfo) (j : BlockJobInfo),
        p.outcome = .jobs l → findJob jobID l = some j → j.ready = true →
        (waitForStorageSync jobID seen (p :: rest)).1 = some .synced)
    ∧ (∀ (jobID : String) (p : StoragePoll) (rest : List StoragePoll)
        (l : List BlockJobInfo),
        p.outcome = .jobs l → findJob jobID l = none → p.lateAppear = false →
        p.lateSync = true →
        (waitForStorageSync jobID false (p :: rest)).1 =
          some (.syncTimedOut jobID))
    ∧ (∀ (jobID : String) (seen : Bool) (p : StoragePoll)
        (rest : List StoragePoll) (l : List BlockJobInfo) (j : BlockJobInfo),
        p.outcome = .jobs l → findJob jobID l = some j → j.ready = false →
        j.status ≠ "concluded" → j.status ≠ "null" → p.lateSync = true →
        (waitForStorageSync jobID seen (p :: rest)).1 =
          some (.syncTimedOut jobID)) := by
  refine ⟨?_, ?_, ?_, ?_, ?_, ?_⟩
  · intro jobID p rest l h1 h2 h3
    simp [waitForStorageSync, h1, h2, h3]
  · intro jobID p rest l h1 h2
    simp [waitForStorageSync, h1, h2]
  · intro jobID seen p rest l j h1 h2 h3 h4
    rcases h4 with h4 | h4 <;> simp [waitForStorageSync, h1, h2, h3, h4]
  · intro jobID seen p rest l j h1 h2 h3
    simp [waitForStorageSync, h1, h2, h3]
  · intro jobID p rest l h1 h2 h3 h4
    simp [waitForStorageSync, h1, h2, h3, h4]
  · intro jobID seen p rest l j h1 h2 h3 h4 h5 h6
    simp [waitForStorageSync, h1, h2, h3, h4, h5, h6]

/-- Witness for C6 at concrete polls of the job "mirror-drive0": empty
result past the appear deadline, empty result after the job had been
seen, a concluded job, a ready job, and the two sync-timeout shapes. -/
theorem storage_sync_loop_classification_witness :
    (waitForStorageSync "mirror-drive0" false [⟨.jobs [], true, false, false⟩]).1 =
      some (.didNotAppear "mirror-drive0")
    ∧ (waitForStorageSync "mirror-drive0" true [⟨.jobs [], false, false, false⟩]).1 =
      some (.disappeared "mirror-drive0")
    ∧ (waitForStorageSync "mirror-drive0" false
        [⟨.jobs [⟨"mirror-drive0", 100, 40, false, "concluded"⟩], false, false, false⟩]).1 =
      some (.terminalState "mirror-drive0" "concluded")
    ∧ (waitForStorageSync "mirror-drive0" false
        [⟨.jobs [⟨"mirror-drive0", 100, 100, true, "running"⟩], false, false, false⟩]).1 =
      some .synced
    ∧ (waitForStorageSync "mirror-drive0" false [⟨.jobs [], false, true, false⟩]).1 =
      some (.syncTimedOut "mirror-drive0")
    ∧ (waitForStorageSync "mirror-drive0" false
        [⟨.jobs [⟨"mirror-drive0", 100, 40, false, "running"⟩], false, true, false⟩]).1 =
      some (.syncTimedOut "mirror-drive0") :=
  ⟨storage_sync_loop_classification.1 "mirror-drive0" ⟨.jobs [], true, false, false⟩
      [] [] (by decide) (by decide) (by decide),
   storage_sync_loop_classification.2.1 "mirror-drive0"
      ⟨.jobs [], false, false, false⟩ [] [] (by decide) (by decide),
   storage_sync_loop_classification.2.2.1 "mirror-drive0" false
      ⟨.jobs [⟨"mirror-drive0", 100, 40, false, "concluded"⟩], false, false, false⟩ []
      [⟨"mirror-drive0", 100, 40, false, "concluded"⟩]
      ⟨"mirror-drive0", 100, 40, false, "concluded"⟩
      (by decide) (by decide) (by decide) (Or.inl (by decide)),
   storage_sync_loop_classification.2.2.2.1 "mirror-drive0" false
      ⟨.jobs [⟨"mirror-drive0", 100, 100, true, "running"⟩], false, false, false⟩ []
      [⟨"mirror-drive0", 100, 100, true, "running"⟩]
      ⟨"mirror-drive0", 100, 100, true, "running"⟩
      (by decide) (by decide) (by decide),
   storage_sync_loop_classification.2.2.2.2.1 "mirror-drive0"
      ⟨.jobs [], false, true, false⟩ [] [] (by decide) (by decide) (by decide)
      (by decide),
   storage_sync_loop_classification.2.2.2.2.2 "mirror-drive0" false
      ⟨.jobs [⟨"mirror-drive0", 100, 40, false, "running"⟩], false, true, false⟩ []
      [⟨"mirror-drive0", 100, 40, false, "running"⟩]
      ⟨"mirror-drive0", 100, 40, false, "running"⟩
      (by decide) (by decide) (by decide) (by decide) (by decide) (by decide)⟩

/-- Environment refuting claim C7 as stated: qdisc installed, the run
otherwise succeeds, but the post-RESUME `release_indefinite` fails
(leaving the plug blocked and the guard armed) and the guarded
`tc qdisc del` — whose error the code discards with `_ = RunCmd(...)` —
also fails. -/
def destBlockedEnv : DestEnv :=
  { initQdisc := .noRoot, tapGiven := true, tapPresent := true,
    preDelOk := true, addOk := true, releaseInitialOk := true, innerDelOk := true,
    connectOk := true, sharedStorage := true, nbdStartOk := true, nbdAddOk := true,
    plugOk := true, resumeOk := true, unplugOk := false, deferredDelOk := false }

/-- Counterexample to claim C7 as stated: in the `destBlockedEnv` run
the qdisc was installed, the post-RESUME flush failed so the guard
stayed armed, the guarded removal fired — but its own `tc` command
failed and the failure is ignored, so the run exits with the tap's
qdisc still blocked, neither removed nor in pass-through. -/
theorem destination_qdisc_left_blocked_counterexample :
    (RunDestination destBlockedEnv).installed = true
    ∧ (RunDestination destBlockedEnv).disarmed = false
    ∧ (RunDestination destBlockedEnv).guardFired = true
    ∧ (RunDestination destBlockedEnv).qdisc = .plugBlocked
    ∧ ¬((RunDestination destBlockedEnv).qdisc = .noRoot
        ∨ (RunDestination destBlockedEnv).qdisc = .plugPass) := by
  refine ⟨by decide, by decide, by decide, by decide, by decide⟩

/-- Claim C7, amended: in every destination run that installed the
packet-buffering qdisc, *provided the guarded `tc qdisc del` cleanup
succeeds when it fires* (its failure is ignored by the code, as the
counterexample shows), the tap interface ends the run either with no
root qdisc or with the qdisc passing traffic — never blocked; the guard
is disarmed exactly when the post-RESUME transition back to
pass-through succeeds; and whenever the guard was not disarmed, the
guarded removal fired at exit. -/
theorem RunDestination_installed_eq (env : DestEnv) :
    (RunDestination env).installed = (destQdiscSetup env).2 := by
  simp only [RunDestination]
  split_ifs <;> rfl

theorem destination_qdisc_never_left_blocked (env : DestEnv)
    (h1 : (RunDestination env).installed = true)
    (h2 : env.deferredDelOk = true) :
    ((RunDestination env).qdisc = .noRoot ∨ (RunDestination env).qdisc = .plugPass)
    ∧ (RunDestination env).disarmed =
        ((RunDestination env).reachedFlush && env.unplugOk)
    ∧ ((RunDestination env).disarmed = false →
        (RunDestination env).guardFired = true) := by
  rw [RunDestination_installed_eq] at h1
  simp only [RunDestination]
  rcases hso : destQdiscSetup env with ⟨q1, inst⟩
  rw [hso] at h1
  dsimp only at h1
  subst h1
  by_cases hc : env.connectOk
  · by_cases hs1 : !env.sharedStorage && !env.nbdStartOk
    · simp [hc, hs1, qdiscDefer, h2]
    · by_cases hs2 : !env.sharedStorage && !env.nbdAddOk
      · simp [hc, hs1, hs2, qdiscDefer, h2]
      · by_cases hr : env.resumeOk
        · by_cases hu : env.unplugOk <;>
            simp [hc, hs1, hs2, hr, hu, qdiscDefer, h2]
        · simp [hc, hs1, hs2, hr, qdiscDefer, h2]
  · simp [hc, qdiscDefer, h2]

/-- Destination environment of scenario 5 with a failing post-RESUME
flush: qdisc installed, everything succeeds except the final
`release_indefinite`, so the guard stays armed and the deferred removal
deletes the qdisc. -/
def destFlushFailEnv : DestEnv :=
  { initQdisc := .noRoot, tapGiven := true, tapPresent := true,
    preDelOk := true, addOk := true, releaseInitialOk := true, innerDelOk := true,
    connectOk := true, sharedStorage := true, nbdStartOk := true, nbdAddOk := true,
    plugOk := true, resumeOk := true, unplugOk := false, deferredDelOk := true }

/-- Witness for C7 at the concrete run where the post-RESUME flush
fails: the guard stays armed (not disarmed), the removal fires and the
tap ends with no root qdisc. -/
theorem destination_qdisc_never_left_blocked_witness :
    ((RunDestination destFlushFailEnv).qdisc = .noRoot
        ∨ (RunDestination destFlushFailEnv).qdisc = .plugPass)
    ∧ (RunDestination destFlushFailEnv).disarmed =
        ((RunDestination destFlushFailEnv).reachedFlush
          && destFlushFailEnv.unplugOk)
    ∧ ((RunDestination destFlushFailEnv).disarmed = false →
        (RunDestination destFlushFailEnv).guardFired = true) :=
  destination_qdisc_never_left_blocked destFlushFailEnv (by decide) (by decide)

/-- Claim C8: tunnel setup parses both addresses and unmaps IPv4-mapped
IPv6 before comparing families, so an IPv4-mapped destination paired
with a plain IPv4 VM address is accepted and handled as IPv4; any pair
whose unmapped families still differ is rejected with an error carrying
both address strings and both family labels; and the accepted pairs
select encapsulation by (family, mode) — (v4, ipip) → ipip,
(v4, gre) → gre, (v6, ipip) → ip6ip6, (v6, gre) → ip6gre — creating the
tunnel with `local any` for IPv4 and `local ::` for IPv6. -/
theorem tunnel_setup_family_and_mode :
    (∀ (dIP vIP s4 vs : String) (tm : String),
        SetupTunnel dIP vIP (some ⟨.v4in6, dIP, s4⟩) (some ⟨.v4, vs, vs⟩) tm
            ⟨true, true, true⟩ =
          .ok { mode := if tm = "gre" then "gre" else "ipip",
                createArgv := ["ip", "tunnel", "add", TunnelName, "mode",
                  (if tm = "gre" then "gre" else "ipip"), "remote", s4,
                  "local", "any"],
                routeArgv := ["ip", "route", "add", vs, "dev", TunnelName] })
    ∧ (∀ (dIP vIP tm : String) (d0 v0 : ParsedAddr) (env : TunnelEnv),
        d0.Unmap.fam.Is4 ≠ v0.Unmap.fam.Is4 →
        SetupTunnel dIP vIP (some d0) (some v0) tm env =
          .error (.familyMismatch dIP (IPFamily d0.Unmap.fam)
            vIP (IPFamily v0.Unmap.fam)))
    ∧ (∀ (dIP vIP ds vs : String),
        SetupTunnel dIP vIP (some ⟨.v4, ds, ds⟩) (some ⟨.v4, vs, vs⟩) "ipip"
            ⟨true, true, true⟩ =
          .ok { mode := "ipip",
                createArgv := ["ip", "tunnel", "add", TunnelName, "mode", "ipip",
                  "remote", ds, "local", "any"],
                routeArgv := ["ip", "route", "add", vs, "dev", TunnelName] })
    ∧ (∀ (dIP vIP ds vs : String),
        SetupTunnel dIP vIP (some ⟨.v4, ds, ds⟩) (some ⟨.v4, vs, vs⟩) "gre"
            ⟨true, true, true⟩ =
          .ok { mode := "gre",
                createArgv := ["ip", "tunnel", "add", TunnelName, "mode", "gre",
                  "remote", ds, "local", "any"],
                routeArgv := ["ip", "route", "add", vs, "dev", TunnelName] })
    ∧ (∀ (dIP vIP ds vs : String),
        SetupTunnel dIP vIP (some ⟨.v6, ds, ds⟩) (some ⟨.v6, vs, vs⟩) "ipip"
            ⟨true, true, true⟩ =
          .ok { mode := "ip6ip6",
                createArgv := ["ip", "-6", "tunnel", "add", TunnelName, "mode",
                  "ip6ip6", "remote", ds, "local", "::"],
                routeArgv := ["ip", "-6", "route", "add", vs, "dev", TunnelName] })
    ∧ (∀ (dIP vIP ds vs : String),
        SetupTunnel dIP vIP (some ⟨.v6, ds, ds⟩) (some ⟨.v6, vs, vs⟩) "gre"
            ⟨true, true, true⟩ =
          .ok { mode := "ip6gre",
                createArgv := ["ip", "-6", "tunnel", "add", TunnelName, "mode",
                  "ip6gre", "remote", ds, "local", "::"],
                routeArgv := ["ip", "-6", "route", "add", vs, "dev", TunnelName] }) := by
  refine ⟨?_, ?_, ?_, ?_, ?_, ?_⟩
  · intro dIP vIP s4 vs tm
    by_cases hg : tm = "gre" <;>
      simp [SetupTunnel, ParsedAddr.Unmap, Addr.Unmap, Addr.Is4, Addr.Is6, hg]
  · intro dIP vIP tm d0 v0 env h
    simp [SetupTunnel, h]
  · intro dIP vIP ds vs
    simp [SetupTunnel, ParsedAddr.Unmap, Addr.Unmap, Addr.Is4, Addr.Is6]
  · intro dIP vIP ds vs
    simp [SetupTunnel, ParsedAddr.Unmap, Addr.Unmap, Addr.Is4, Addr.Is6]
  · intro dIP vIP ds vs
    simp [SetupTunnel, ParsedAddr.Unmap, Addr.Unmap, Addr.Is4, Addr.Is6]
  · intro dIP vIP ds vs
    simp [SetupTunnel, ParsedAddr.Unmap, Addr.Unmap, Addr.Is4, Addr.Is6]

/-- Witness for C8: `::ffff:10.0.0.1` (IPv4-mapped, unmapping to
10.0.0.1) paired with 10.244.1.15 is accepted as an IPv4 ipip tunnel;
10.0.0.1 paired with fd00::1 is rejected naming both addresses and
families; and the four concrete (family, mode) pairs map as stated. -/
theorem tunnel_setup_family_and_mode_witness :
    SetupTunnel "::ffff:10.0.0.1" "10.244.1.15"
        (some ⟨.v4in6, "::ffff:10.0.0.1", "10.0.0.1"⟩)
        (some ⟨.v4, "10.244.1.15", "10.244.1.15"⟩) "ipip" ⟨true, true, true⟩ =
      .ok { mode := "ipip",
            createArgv := ["ip", "tunnel", "add", TunnelName, "mode", "ipip",
              "remote", "10.0.0.1", "local", "any"],
            routeArgv := ["ip", "route", "add", "10.244.1.15", "dev", TunnelName] }
    ∧ SetupTunnel "10.0.0.1" "fd00::1"
        (some ⟨.v4, "10.0.0.1", "10.0.0.1"⟩) (some ⟨.v6, "fd00::1", "fd00::1"⟩)
        "ipip" ⟨true, true, true⟩ =
      .error (.familyMismatch "10.0.0.1" "IPv4" "fd00::1" "IPv6")
    ∧ (SetupTunnel "fd00::42" "fd00:244::15"
        (some ⟨.v6, "fd00::42", "fd00::42"⟩)
        (some ⟨.v6, "fd00:244::15", "fd00:244::15"⟩) "gre" ⟨true, true, true⟩ =
      .ok { mode := "ip6gre",
            createArgv := ["ip", "-6", "tunnel", "add", TunnelName, "mode",
              "ip6gre", "remote", "fd00::42", "local", "::"],
            routeArgv := ["ip", "-6", "route", "add", "fd00:244::15", "dev",
              TunnelName] }) := by
  refine ⟨?_, ?_, ?_⟩
  · have h := tunnel_setup_family_and_mode.1 "::ffff:10.0.0.1" "10.244.1.15"
      "10.0.0.1" "10.244.1.15" "ipip"
    simpa using h
  · have h := tunnel_setup_family_and_mode.2.1 "10.0.0.1" "fd00::1" "ipip"
      ⟨.v4, "10.0.0.1", "10.0.0.1"⟩ ⟨.v6, "fd00::1", "fd00::1"⟩ ⟨true, true, true⟩
      (by decide)
    simpa [ParsedAddr.Unmap, Addr.Unmap, IPFamily, Addr.Is4] using h
  · exact tunnel_setup_family_and_mode.2.2.2.2.2 "fd00::42" "fd00:244::15"
      "fd00::42" "fd00:244::15"

/-- Inputs of end-to-end scenario 2 (same as scenario 1 but IPv6):
dest-ip fd00::42, vm-ip fd00:244::15. -/
def sourceScenario2Cfg : SourceCfg :=
  { destIP := "fd00::42", destParse := some .v6, vmIP := "fd00:244::15",
    driveID := "drive-virtio-disk0", sharedStorage := true, tunnelMode := "ipip" }

/-- Scenario 2 variant with non-shared storage, so the drive-mirror
phase runs; its single storage poll reports the mirror ready. -/
def sourceScenario2NBDCfg : SourceCfg :=
  { sourceScenario2Cfg with sharedStorage := false }

/-- Environment for the non-shared IPv6 run: as scenario 1, plus one
storage poll showing the mirror job ready. -/
def sourceScenario2NBDScript : SourceScript :=
  { sourceScenario1Script with
    storagePolls :=
      [⟨.jobs [⟨"mirror-drive-virtio-disk0", 100, 100, true, "running"⟩],
        false, false, false⟩] }

/-- Claim C9: the host part of every colon-delimited QEMU URI the source
orchestrator builds is bracketed for an IPv6 destination and left bare
for IPv4: `FormatQEMUHost` wraps a (non-IPv4-mapped) IPv6 address in
square brackets and returns an IPv4 address unchanged, so a shared-
storage run with dest-ip fd00::42 issues
`migrate uri=tcp:[fd00::42]:4444` while the IPv4 run of scenario 1
issues `migrate uri=tcp:10.0.1.42:4444`, and a non-shared run with the
IPv6 destination targets the drive mirror at
`nbd:[fd00::42]:10809:exportname=<drive>`. -/
theorem qemu_host_bracketed_for_ipv6 :
    (∀ ip : String, FormatQEMUHost (some .v6) ip = "[" ++ ip ++ "]")
    ∧ (∀ ip : String, FormatQEMUHost (some .v4) ip = ip)
    ∧ (∀ ip : String, FormatQEMUHost (some .v4in6) ip = ip)
    ∧ (∀ ip : String, FormatQEMUHost none ip = ip)
    ∧ TraceEntry.mk (.migrate "tcp:[fd00::42]:4444") false ∈
        (RunSource sourceScenario2Cfg sourceScenario1Script).2
    ∧ TraceEntry.mk (.migrate "tcp:10.0.1.42:4444") false ∈
        (RunSource sourceScenario1Cfg sourceScenario1Script).2
    ∧ TraceEntry.mk (.driveMirror "drive-virtio-disk0"
          "nbd:[fd00::42]:10809:exportname=drive-virtio-disk0" "full" "existing"
          "mirror-drive-virtio-disk0") false ∈
        (RunSource sourceScenario2NBDCfg sourceScenario2NBDScript).2 := by
  refine ⟨?_, ?_, ?_, ?_, by decide, by decide, by decide⟩
  · intro ip; simp [FormatQEMUHost, Addr.Is6, Addr.Is4In6]
  · intro ip; simp [FormatQEMUHost, Addr.Is6, Addr.Is4In6]
  · intro ip; simp [FormatQEMUHost, Addr.Is6, Addr.Is4In6]
  · intro ip; simp [FormatQEMUHost]

/-- Claim C10: every failing return path of `NewClient` — greeting read
error other than timeout, deadline set/clear failures, capabilities
marshal, write, read or decode failures, a protocol-error capabilities
reply, and caller-context cancellation during the handshake — leaves
the just-dialed socket closed at return; the function never returns a
session object together with an error; and a session is returned only
with the connection open and the handshake deadline cleared (a greeting
that merely times out does not fail the handshake). -/
theorem connect_failure_closes_socket (env : ConnectEnv) :
    ((NewClient env).err.isSome = true → (NewClient env).sockOpen = false)
    ∧ ¬((NewClient env).client.isSome = true ∧ (NewClient env).err.isSome = true)
    ∧ ((NewClient env).client.isSome = true →
        (NewClient env).sockOpen = true ∧ (NewClient env).deadlineCleared = true)
    ∧ (env.dialOk = true → env.ctxCancelled = false →
        env.setGreetingDeadlineOk = true → env.greeting = .timeoutErr →
        env.setCapsDeadlineOk = true → env.marshalOk = true →
        env.writeCapsOk = true → env.capsReply = .reply { ret := some "{}" } →
        env.clearDeadlineOk = true → (NewClient env).err = none)
    ∧ (env.dialOk = true → env.ctxCancelled = true →
        (NewClient env).err.isSome = true ∧ (NewClient env).sockOpen = false) := by
  obtain ⟨dialOk, ctxC, sgd, greet, scd, mo, wo, caps, cdo⟩ := env
  refine ⟨?_, ?_, ?_, ?_, ?_⟩
  · cases dialOk <;> cases ctxC <;> cases sgd <;> cases greet <;> cases scd <;>
      cases mo <;> cases wo <;> simp [NewClient] <;>
      (rcases caps with r | _ | _
       · rcases hre : r.error with _ | e <;> cases cdo <;> simp [NewClient, hre]
       · simp [NewClient]
       · simp [NewClient])
  · cases dialOk <;> cases ctxC <;> cases sgd <;> cases greet <;> cases scd <;>
      cases mo <;> cases wo <;> simp [NewClient] <;>
      (rcases caps with r | _ | _
       · rcases hre : r.error with _ | e <;> cases cdo <;> simp [NewClient, hre]
       · simp [NewClient]
       · simp [NewClient])
  · cases dialOk <;> cases ctxC <;> cases sgd <;> cases greet <;> cases scd <;>
      cases mo <;> cases wo <;> simp [NewClient] <;>
      (rcases caps with r | _ | _
       · rcases hre : r.error with _ | e <;> cases cdo <;> simp [NewClient, hre]
       · simp [NewClient]
       · simp [NewClient])
  · intro h1 h2 h3 h4 h5 h6 h7 h8 h9
    simp only at h1 h2 h3 h4 h5 h6 h7 h8 h9
    subst h1; subst h2; subst h3; subst h4; subst h5; subst h6; subst h7
    subst h8; subst h9
    simp [NewClient, Response.error]
  · intro h1 h2
    simp only at h1 h2
    subst h1; subst h2
    cases sgd <;> simp [NewClient]

/-- Witness for C10: a concrete failed handshake (protocol-error
capabilities reply) returns an error with the socket closed and no
session; a concrete clean handshake whose greeting timed out returns a
session with the socket open and the deadline cleared; a concrete
cancelled handshake fails with the socket closed. -/
theorem connect_failure_closes_socket_witness :
    ((NewClient ⟨true, false, true, .line, true, true, true,
        .reply { error := some ⟨"GenericError", "denied"⟩ }, true⟩).err.isSome = true →
      (NewClient ⟨true, false, true, .line, true, true, true,
        .reply { error := some ⟨"GenericError", "denied"⟩ }, true⟩).sockOpen = false)
    ∧ (NewClient ⟨true, false, true, .timeoutErr, true, true, true,
        .reply { ret := some "{}" }, true⟩).err = none
    ∧ ((NewClient ⟨true, true, true, .line, true, true, true,
        .reply { ret := some "{}" }, true⟩).err.isSome = true
      ∧ (NewClient ⟨true, true, true, .line, true, true, true,
        .reply { ret := some "{}" }, true⟩).sockOpen = false) :=
  ⟨(connect_failure_closes_socket ⟨true, false, true, .line, true, true, true,
      .reply { error := some ⟨"GenericError", "denied"⟩ }, true⟩).1,
   (connect_failure_closes_socket ⟨true, false, true, .timeoutErr, true, true, true,
      .reply { ret := some "{}" }, true⟩).2.2.2.1 rfl rfl rfl rfl rfl rfl rfl rfl rfl,
   (connect_failure_closes_socket ⟨true, true, true, .line, true, true, true,
      .reply { ret := some "{}" }, true⟩).2.2.2.2 rfl rfl⟩

/-! ## Superseded flat-layout copies

The repository also retains the pre-refactor flat `package main` copy of
the tool (top-level qmp.go, dest.go, tunnel.go and companions).  Two of
its behaviours differ from the current `internal/` implementation that
the build wires into the binary; they are recorded here for contrast. -/

/-- RAM-phase monitor commands of the superseded flat-layout
`setupSource`: it sends the `migrate` command twice in a row (an
apparent copy-paste), the duplication absent from `RunSource`. -/
def setupSourceLegacyRamTrace (uri : String) : List TraceEntry :=
  [⟨.migrateSetCapabilities "auto-converge" true, false⟩,
   ⟨.migrateSetParameters 50 10000000000, false⟩,
   ⟨.migrate uri, false⟩, ⟨.migrate uri, false⟩]

/-- The legacy orchestrator issues `migrate` twice where the current
`RunSource` issues it at most once. -/
theorem legacy_setupSource_migrate_twice (uri : String) :
    countMigrate (setupSourceLegacyRamTrace uri) = 2 := by
  simp [setupSourceLegacyRamTrace, countMigrate, List.countP_cons]

/-- Effect of the legacy flat-layout `QMPClient.Execute` cancellation
monitor: it calls `conn.Close()` on context cancellation (instead of
advancing the deadline as the current client does), closing the socket
while leaving the session handle set. -/
def legacyExecuteCancelMonitor (c : Client) (cancelled : Bool) : Client :=
  if cancelled then { c with sockOpen := false } else c

/-- Under the legacy client a cancelled call leaves the socket closed,
so the session cannot serve the cleanup commands that follow. -/
theorem legacy_cancel_monitor_closes_socket (c : Client) :
    (legacyExecuteCancelMonitor c true).sockOpen = false := rfl
